import Mathlib

/-!
Verification of the rule-based text-to-JSON extraction core of
`src/backend/app.py` (Prompt Factory).

The Python source is shallowly embedded:
* strings are Lean `String` / `List Char`; Python `str.lower()` and the
  regex classes `\w`, `\d`, whitespace are modelled at ASCII precision
  (the fixed pattern tables of the source are already lower-case, and all
  case-sensitive behaviour exercised below is ASCII);
* `re.search` with the three fixed patterns of the source (aspect ratio,
  lens, aperture) is modelled by explicit leftmost scans with Python
  word-boundary (`\b`) semantics;
* Python dicts become ordered association lists (insertion order is
  preserved, mirroring CPython semantics);
* the `jsonschema.validate` call is modelled by a recursive structural
  checker `checkS` over a schema AST that transliterates the four schema
  dictionaries of the source (the subset of JSON Schema the source uses:
  type string / integer with bounds / array of strings with minItems /
  closed objects with required keys / string enum / oneOf of three
  shapes).  `validate_envelope` returns the boolean verdict plus a
  one-message error list, mirroring `return False, [e.message]`.
-/

set_option maxHeartbeats 1000000

/-! ## Python string primitives (ASCII-precision model) -/

/-- Python whitespace for `str.strip()` (ASCII part). -/
def pySpace (c : Char) : Bool :=
  c == ' ' || c == '\t' || c == '\n' || c == '\r' || c == '\x0b' || c == '\x0c'

/-- `str.strip()` on a character list. -/
def pyStripL (l : List Char) : List Char :=
  ((l.dropWhile pySpace).reverse.dropWhile pySpace).reverse

/-- `str.strip()`. -/
def pyStrip (s : String) : String := String.mk (pyStripL s.data)

/-- `str.lower()` (ASCII case folding). -/
def pyLower (s : String) : String := String.mk (s.data.map Char.toLower)

/-- Substring occurrence, modelling Python `pat in s`. -/
def containsSub (pat : List Char) : List Char → Bool
  | [] => pat.isEmpty
  | c :: rest => pat.isPrefixOf (c :: rest) || containsSub pat rest

/-- Python `pat in s` on strings. -/
def pyContains (pat s : String) : Bool := containsSub pat.data s.data

/-- Everything after the first occurrence of `pat`, i.e. `s.split(pat, 1)[1]`
(callers guard on occurrence, as the source does). -/
def afterFirstAux (pat : List Char) : List Char → List Char
  | [] => []
  | c :: rest =>
    if pat.isPrefixOf (c :: rest) then (c :: rest).drop pat.length
    else afterFirstAux pat rest

/-- Split on every character satisfying `p`, keeping empty pieces: models
both `str.split(",")` and `re.split` over a character class. -/
def splitOnPred (p : Char → Bool) : List Char → List (List Char)
  | [] => [[]]
  | c :: rest =>
    match splitOnPred p rest with
    | h :: t => if p c then [] :: h :: t else (c :: h) :: t
    | [] => [[c]]

/-- `[x.strip() for x in pieces if x.strip()]`. -/
def stripPieces (ls : List (List Char)) : List String :=
  ((ls.map pyStripL).filter (fun l => !l.isEmpty)).map (fun l => String.mk l)

/-! ## Regex model: `\b` word boundaries and the three fixed patterns -/

/-- Python regex `\w` (ASCII precision). -/
def wordChar (c : Char) : Bool := c.isAlphanum || c == '_'

/-- Word-boundary condition against the preceding character, for a pattern
whose first character is a word character (all patterns below are). -/
def prevOk : Option Char → Bool
  | none => true
  | some c => !wordChar c

/-- Word-boundary condition after a match ending in a word character. -/
def nonWordHead : List Char → Bool
  | [] => true
  | c :: _ => !wordChar c

/-- `re.search(r"\b(lit)\b", text)` for a literal `lit` that starts and ends
with word characters: scan left to right carrying the previous character. -/
def searchBoundedAux (lit : List Char) : Option Char → List Char → Bool
  | prev, [] => prevOk prev && lit.isPrefixOf ([] : List Char) && nonWordHead []
  | prev, c :: rest =>
    (prevOk prev && lit.isPrefixOf (c :: rest)
      && nonWordHead ((c :: rest).drop lit.length))
    || searchBoundedAux lit (some c) rest

def searchBounded (lit text : String) : Bool :=
  searchBoundedAux lit.data none text.data

/-- `LENS_PATTERN = re.compile(r"\b(\d{2,3}mm)\b", re.IGNORECASE)`:
two-digit attempt at one position (tried after the greedy three-digit one). -/
def isMChar (c : Char) : Bool := c == 'm' || c == 'M'

def lensMatch2 : List Char → Option (List Char)
  | a :: b :: c :: d :: rest =>
    if a.isDigit && b.isDigit && isMChar c && isMChar d && nonWordHead rest then
      some [a, b, c, d]
    else none
  | _ => none

def lensMatch3 : List Char → Option (List Char)
  | a :: b :: c :: d :: e :: rest =>
    if a.isDigit && b.isDigit && c.isDigit && isMChar d && isMChar e
        && nonWordHead rest then
      some [a, b, c, d, e]
    else none
  | _ => none

/-- Greedy `\d{2,3}` at one position: three digits first, then two. -/
def lensMatchAt (s : List Char) : Option (List Char) :=
  match lensMatch3 s with
  | some r => some r
  | none => lensMatch2 s

def searchLensAux : Option Char → List Char → Option String
  | _, [] => none
  | prev, c :: rest =>
    if prevOk prev then
      match lensMatchAt (c :: rest) with
      | some cs => some (String.mk cs)
      | none => searchLensAux (some c) rest
    else searchLensAux (some c) rest

/-- `APERTURE_PATTERN = re.compile(r"\b(f\/\d+(\.\d+)?)\b", re.IGNORECASE)`
at one position.  The greedy engine takes the maximal digit runs; when the
optional `(\.\d+)?` group matches but the trailing `\b` fails, it backtracks
to dropping the group, and the boundary before `.` then always holds. -/
def apMatchAt (s : List Char) : Option (List Char) :=
  match s with
  | f :: sl :: rest =>
    if (f == 'f' || f == 'F') && sl == '/' then
      let ds := rest.takeWhile Char.isDigit
      let rest2 := rest.dropWhile Char.isDigit
      if ds.isEmpty then none
      else
        match rest2 with
        | '.' :: rest3 =>
          let es := rest3.takeWhile Char.isDigit
          let rest4 := rest3.dropWhile Char.isDigit
          if !es.isEmpty && nonWordHead rest4 then some (f :: sl :: (ds ++ '.' :: es))
          else some (f :: sl :: ds)
        | _ => if nonWordHead rest2 then some (f :: sl :: ds) else none
    else none
  | _ => none

def searchApAux : Option Char → List Char → Option String
  | _, [] => none
  | prev, c :: rest =>
    if prevOk prev then
      match apMatchAt (c :: rest) with
      | some cs => some (String.mk cs)
      | none => searchApAux (some c) rest
    else searchApAux (some c) rest

/-! ## Pattern library (app.py lines 185-198) -/

def STYLE_KEYWORDS : List String :=
  ["photorealistic", "commercial", "cinematic", "editorial", "minimal",
   "3d", "anime", "watercolor", "film"]

def SHOT_KEYWORDS : List (String × List String) :=
  [("close-up", ["cận cảnh", "close-up", "macro"]),
   ("wide", ["toàn cảnh", "wide", "panorama"]),
   ("medium", ["trung cảnh", "medium shot"])]

def ASPECT_PATTERNS : List (String × String) :=
  [("1:1", "1:1"), ("4:5", "4:5"), ("16:9", "16:9"), ("9:16", "9:16")]

/-! ## Field extractors (app.py lines 200-250) -/

def firstAspect : List (String × String) → String → Option String
  | [], _ => none
  | (pat, ar) :: rest, text =>
    if searchBounded pat text then some ar else firstAspect rest text

def extract_aspect_ratio (text : String) : Option String :=
  firstAspect ASPECT_PATTERNS text

def extract_lens (text : String) : Option String :=
  searchLensAux none text.data

def extract_aperture (text : String) : Option String :=
  searchApAux none text.data

def firstShot : List (String × List String) → String → Option String
  | [], _ => none
  | (shot, keys) :: rest, low =>
    if keys.any (fun k => pyContains k low) then some shot else firstShot rest low

def extract_shot (text : String) : Option String :=
  firstShot SHOT_KEYWORDS (pyLower text)

def extract_styles (text : String) : List String :=
  STYLE_KEYWORDS.filter (fun s => pyContains s (pyLower text))

/-- The final de-duplication loop of `extract_negative`:
`for x in neg: if x and x not in out: out.append(x)`. -/
def dedupeGo : List String → List String → List String
  | out, [] => out
  | out, x :: rest =>
    if !(x == "") && !out.contains x then dedupeGo (out ++ [x]) rest
    else dedupeGo out rest

def extract_negative (text : String) : List String :=
  let low := (pyLower text).data
  let n1 :=
    if containsSub "negative:".data low then
      stripPieces (splitOnPred (fun c => c == ',') (afterFirstAux "negative:".data low))
    else []
  let n2 :=
    if containsSub "--no".data low then
      stripPieces (splitOnPred (fun c => c == ',' || c == '\n') (afterFirstAux "--no".data low))
    else []
  let n3a :=
    if containsSub "tránh".data low then
      stripPieces (splitOnPred (fun c => c == ',' || c == '\n' || c == ';')
        (afterFirstAux "tránh".data low))
    else []
  let n3b :=
    if containsSub "không có".data low then
      stripPieces (splitOnPred (fun c => c == ',' || c == '\n' || c == ';')
        (afterFirstAux "không có".data low))
    else []
  dedupeGo [] (n1 ++ n2 ++ n3a ++ n3b)

def env_cues : List String :=
  ["background", "bối cảnh", "trên", "trong", "at ", "in ", "studio",
   "ánh sáng", "light"]

def isEnvFrag (p : String) : Bool :=
  env_cues.any (fun cue => pyContains cue (pyLower p))

/-- `[p.strip() for p in text.split(",") if p.strip()]`. -/
def imageParts (text : String) : List String :=
  stripPieces (splitOnPred (fun c => c == ',') text.data)

/-- The classification loop of `naive_subject_environment`, appending each
fragment to the environment or subject list in order. -/
def splitSE : List String → List String × List String
  | [] => ([], [])
  | p :: rest =>
    let r := splitSE rest
    if isEnvFrag p then (r.1, p :: r.2) else (p :: r.1, r.2)

def naive_subject_environment (text : String) : List String × List String :=
  let parts := imageParts text
  let r := splitSE parts
  (r.1.take 6, r.2.take 6)

/-! ## JSON documents and task builders (app.py lines 252-381) -/

inductive Json where
  | str : String → Json
  | int : Int → Json
  | arr : List Json → Json
  | obj : List (String × Json) → Json

def lookupJ : List (String × Json) → String → Option Json
  | [], _ => none
  | (k, v) :: rest, key => if k == key then some v else lookupJ rest key

/-- Follow a path of object keys into a document. -/
def getPath (j : Json) : List String → Option Json
  | [] => some j
  | k :: rest =>
    match j with
    | .obj kvs => match lookupJ kvs k with
      | some v => getPath v rest
      | none => none
    | _ => none

/-- Assembly of the image dict of `parse_image` from its extracted pieces;
keys appear in Python insertion order, optional keys only when non-empty. -/
def imageAssemble (prim : String) (negative : List String) (ar : String)
    (styles subject environment : List String)
    (shot lens ap : Option String) : Json :=
  let composition : List (String × Json) :=
    (match shot with | some s => [("shot", Json.str s)] | none => []) ++
    (match lens with | some s => [("lens", Json.str s)] | none => []) ++
    (match ap with | some s => [("aperture", Json.str s)] | none => [])
  let neg := if negative.isEmpty then ["text", "watermark", "blurry", "low quality"]
             else negative
  Json.obj
    ([("primary", Json.str prim),
      ("constraints", Json.obj [("negative", Json.arr (neg.map Json.str))]),
      ("output", Json.obj [("aspect_ratio", Json.str ar), ("num_images", Json.int 1)]),
      ("quality", Json.obj [("detail", Json.str "high"), ("resolution", Json.str "4k")])] ++
     (if styles.isEmpty then [] else [("style", Json.arr (styles.map Json.str))]) ++
     (if subject.isEmpty then [] else [("subject", Json.arr (subject.map Json.str))]) ++
     (if environment.isEmpty then []
      else [("environment", Json.arr (environment.map Json.str))]) ++
     (if composition.isEmpty then [] else [("composition", Json.obj composition)]))

def parse_image (text : String) : Json :=
  imageAssemble (pyStrip text) (extract_negative text)
    ((extract_aspect_ratio text).getD "1:1")
    (extract_styles text)
    (naive_subject_environment text).1 (naive_subject_environment text).2
    (extract_shot text) (extract_lens text) (extract_aperture text)

def BENEFIT_KEYWORDS : List String :=
  ["healthy", "tốt cho sức khỏe", "ít đường", "giàu protein", "plant-based",
   "thuần thực vật", "ngon", "thơm"]

def FNB_KEYWORDS : List String := ["latte", "cà phê", "matcha", "trà", "sữa"]

/-- Everything before the first comma: `text.split(",")[0]`. -/
def beforeFirstComma (text : String) : String :=
  String.mk (text.data.takeWhile (fun c => !(c == ',')))

def parse_marketing (text : String) : Json :=
  let low := pyLower text
  let platform :=
    if pyContains "tiktok" low then "tiktok"
    else if pyContains "facebook" low || pyContains "fb" low then "facebook"
    else "social"
  let first := pyStrip (String.mk ((splitOnPred (fun c => c == ',') text.data).headD []))
  let name := if first.length ≥ 3 then first else "Sản phẩm"
  let benefits := BENEFIT_KEYWORDS.filter (fun kw => pyContains kw low)
  Json.obj
    [("product", Json.obj
        [("name", Json.str name),
         ("category", Json.str
            (if FNB_KEYWORDS.any (fun k => pyContains k low) then "F&B" else "general")),
         ("key_benefits", Json.arr (benefits.map Json.str))]),
     ("platform", Json.str platform),
     ("objective", Json.str "conversion"),
     ("tone", Json.arr [Json.str "ngắn gọn", Json.str "bắt trend", Json.str "thuyết phục"]),
     ("deliverables", Json.obj
        [("hook_titles", Json.arr
            [Json.str (name ++ ": nghe là muốn thử liền"),
             Json.str (name ++ ": lý do bạn nên đổi gu hôm nay")]),
         ("script_60s", Json.str
            ("HOOK: " ++ name ++ "...\nVẤN ĐỀ: ...\nGIẢI PHÁP: ...\nBẰNG CHỨNG: ...\nCTA: ...")),
         ("caption", Json.str
            (name ++ " – mô tả ngắn gọn + lợi ích + lời kêu gọi hành động.")),
         ("hashtags", Json.arr [Json.str "#fyp", Json.str "#viral", Json.str "#xuhuong"]),
         ("cta", Json.arr
            [Json.str "Comment “INBOX” để nhận menu", Json.str "Đặt ngay hôm nay"])]),
     ("compliance", Json.obj
        [("avoid_claims", Json.arr
            [Json.str "chữa bệnh", Json.str "cam kết giảm cân",
             Json.str "tuyên bố y khoa tuyệt đối"]),
         ("constraints", Json.arr
            [Json.str "không nói quá", Json.str "không công kích đối thủ"])])]

def parse_agent (_text : String) : Json :=
  Json.obj
    [("role", Json.str "AI Prompt Engineer / Automation Agent"),
     ("goals", Json.arr
        [Json.str "Chuyển yêu cầu dạng text thành JSON đúng schema",
         Json.str "Tự phát hiện thiếu thông tin và đề xuất câu hỏi bổ sung ngắn gọn",
         Json.str "Xuất kết quả nhất quán, dễ dùng cho hệ thống downstream"]),
     ("tools_allowed", Json.arr [Json.str "schema_validator", Json.str "keyword_parser"]),
     ("constraints", Json.arr
        [Json.str "Không bịa thông tin cụ thể (giá, thành phần, thông số) nếu người dùng chưa cung cấp",
         Json.str "Luôn trả về JSON hợp lệ, đúng schema",
         Json.str "Nếu thiếu dữ liệu quan trọng: gắn cờ trong output thay vì đoán bừa"]),
     ("process", Json.obj
        [("steps", Json.arr
            [Json.str "Chuẩn hóa text (trim, bỏ ký tự thừa).",
             Json.str "Nhận diện task type hoặc dùng task user chọn.",
             Json.str "Trích xuất entity/constraints/outputs theo rule.",
             Json.str "Validate bằng JSON Schema.",
             Json.str "Nếu fail: trả errors + gợi ý sửa."]),
         ("ask_clarifying_if", Json.arr
            [Json.str "Không có tên sản phẩm/đối tượng chính",
             Json.str "Không có nền tảng (TikTok/FB) cho marketing task",
             Json.str "Thiếu output format/acceptance criteria cho agent task"])]),
     ("outputs", Json.obj
        [("format", Json.str "JSON only"),
         ("acceptance_criteria", Json.arr
            [Json.str "JSON parse được",
             Json.str "Validate pass theo schema của task",
             Json.str "Không chứa field thừa"])]),
     ("evaluation", Json.obj
        [("checklist", Json.arr
            [Json.str "Schema valid",
             Json.str "Negative/constraints hợp lý",
             Json.str "Không suy diễn thông tin nhạy cảm"])])]

/-- The `TaskType = Literal["image", "marketing", "agent"]` selector. -/
inductive TaskType where
  | image : TaskType
  | marketing : TaskType
  | agent : TaskType

def TaskType.toStr : TaskType → String
  | .image => "image"
  | .marketing => "marketing"
  | .agent => "agent"

def build_envelope (text lang : String) (task : TaskType) : Json :=
  let task_obj :=
    match task with
    | .image => parse_image text
    | .marketing => parse_marketing text
    | .agent => parse_agent text
  Json.obj
    [("meta", Json.obj
        [("version", Json.str "1.0"), ("lang", Json.str lang),
         ("task", Json.str task.toStr)]),
     ("task", task_obj)]

example : extract_lens "macro shot, f/2.8, 85mm" = some "85mm" := by decide
example : extract_aperture "macro shot, f/2.8, 85mm" = some "f/2.8" := by decide
example : extract_shot "macro shot" = some "close-up" := by decide
example : extract_negative "negative: blurry, low quality" = ["blurry", "low quality"] := by decide
example : extract_aspect_ratio "4:5 16:9" = some "4:5" := by decide
example : extract_negative "negative: a, b, --no a, c" = ["a", "b", "--no a", "c"] := by decide
example : naive_subject_environment "a1, b2, c3, d4, e5, f6, g7" =
    (["a1", "b2", "c3", "d4", "e5", "f6"], []) := by decide

example : extract_lens "8500mm" = none := by decide
example : extract_lens "1234mm" = none := by decide
example : extract_lens "12mm3" = none := by decide
example : extract_lens "85MM x" = some "85MM" := by decide
example : extract_lens "a85mm" = none := by decide
example : extract_lens "85mm_" = none := by decide
example : extract_lens "f/85mm" = some "85mm" := by decide
example : extract_aperture "f/2.8" = some "f/2.8" := by decide
example : extract_aperture "f/2.8x" = some "f/2" := by decide
example : extract_aperture "f/2.85x" = some "f/2" := by decide
example : extract_aperture "f/2." = some "f/2" := by decide
example : extract_aperture "f/2abc" = none := by decide
example : extract_aperture "F/11 " = some "F/11" := by decide
example : extract_aperture "xf/2" = none := by decide
example : extract_aperture "f/2.8.9" = some "f/2.8" := by decide
example : extract_aperture "f/.8" = none := by decide
example : extract_aperture "f/2..8" = some "f/2" := by decide
example : extract_aspect_ratio "116:9" = none := by decide
example : extract_aspect_ratio "1:16:9" = some "16:9" := by decide
example : extract_aspect_ratio "a16:9b" = none := by decide
example : extract_aspect_ratio "16:9:1" = some "16:9" := by decide

/-! ## Schema AST and structural checker (app.py lines 12-165, 383-389)

The AST covers exactly the JSON Schema subset the four schema dictionaries
use.  Every object schema in the source carries `"additionalProperties":
False`, so `sObj` has closed-object semantics built in; every array schema
has `{"type": "string"}` items, so `sArrStr` carries only `minItems`
(0 when the source omits it). -/

mutual
inductive Schema where
  | sString : Schema
  | sEnum : List String → Schema
  | sInt : Int → Int → Schema
  | sArrStr : Nat → Schema
  | sObj : List String → Props → Schema
  | sOneOf3 : Schema → Schema → Schema → Schema
inductive Props where
  | nil : Props
  | cons : String → Schema → Props → Props
end

def propsOfList : List (String × Schema) → Props
  | [] => .nil
  | (k, s) :: rest => .cons k s (propsOfList rest)

def isStrJ : Json → Bool
  | .str _ => true
  | _ => false

def keyDeclared (props : Props) (k : String) : Bool :=
  match props with
  | .nil => false
  | .cons k2 _ rest => k2 == k || keyDeclared rest k

def hasKeyJ (kvs : List (String × Json)) (k : String) : Bool :=
  kvs.any (fun kv => kv.1 == k)

mutual
/-- Structural validity of an instance against a schema: required keys
present, no undeclared keys (closed objects), declared keys well-typed,
enum membership, integer bounds, `minItems`, and exactly-one semantics
for `oneOf`. -/
def checkS : Schema → Json → Bool
  | .sString, j => isStrJ j
  | .sEnum vs, j => match j with | .str s => vs.contains s | _ => false
  | .sInt lo hi, j =>
    match j with | .int n => decide (lo ≤ n) && decide (n ≤ hi) | _ => false
  | .sArrStr m, j =>
    match j with | .arr xs => decide (m ≤ xs.length) && xs.all isStrJ | _ => false
  | .sObj req props, j =>
    match j with
    | .obj kvs =>
      req.all (fun k => hasKeyJ kvs k) && kvs.all (fun kv => keyDeclared props kv.1)
        && checkProps props kvs
    | _ => false
  | .sOneOf3 a b c, j =>
    ((checkS a j).toNat + (checkS b j).toNat + (checkS c j).toNat) == 1

/-- For each declared property present in the object, check its value. -/
def checkProps : Props → List (String × Json) → Bool
  | .nil, _ => true
  | .cons k s rest, kvs =>
    (match lookupJ kvs k with | some v => checkS s v | none => true)
      && checkProps rest kvs
end

def IMAGE_SCHEMA : Schema :=
  .sObj ["primary", "constraints", "output"] (propsOfList
    [("primary", .sString),
     ("style", .sArrStr 0),
     ("subject", .sArrStr 0),
     ("environment", .sArrStr 0),
     ("composition", .sObj [] (propsOfList
        [("shot", .sString), ("lens", .sString), ("aperture", .sString),
         ("angle", .sString)])),
     ("quality", .sObj [] (propsOfList
        [("detail", .sString), ("resolution", .sString)])),
     ("constraints", .sObj ["negative"] (propsOfList [("negative", .sArrStr 0)])),
     ("output", .sObj ["aspect_ratio", "num_images"] (propsOfList
        [("aspect_ratio", .sString), ("num_images", .sInt 1 8)]))])

def MARKETING_SCHEMA : Schema :=
  .sObj ["product", "platform", "deliverables"] (propsOfList
    [("product", .sObj ["name"] (propsOfList
        [("name", .sString), ("category", .sString),
         ("key_benefits", .sArrStr 0), ("price_point", .sString)])),
     ("audience", .sObj [] (propsOfList
        [("segment", .sString), ("pain_points", .sArrStr 0),
         ("desires", .sArrStr 0)])),
     ("platform", .sString),
     ("objective", .sString),
     ("tone", .sArrStr 0),
     ("deliverables", .sObj ["hook_titles", "script_60s", "caption", "hashtags", "cta"]
        (propsOfList
          [("hook_titles", .sArrStr 1), ("script_60s", .sString),
           ("caption", .sString), ("hashtags", .sArrStr 0), ("cta", .sArrStr 1)])),
     ("compliance", .sObj [] (propsOfList
        [("avoid_claims", .sArrStr 0), ("constraints", .sArrStr 0)]))])

def AGENT_SCHEMA : Schema :=
  .sObj ["role", "goals", "constraints", "outputs"] (propsOfList
    [("role", .sString),
     ("goals", .sArrStr 1),
     ("tools_allowed", .sArrStr 0),
     ("constraints", .sArrStr 0),
     ("process", .sObj [] (propsOfList
        [("steps", .sArrStr 0), ("ask_clarifying_if", .sArrStr 0)])),
     ("outputs", .sObj ["format", "acceptance_criteria"] (propsOfList
        [("format", .sString), ("acceptance_criteria", .sArrStr 1)])),
     ("evaluation", .sObj [] (propsOfList [("checklist", .sArrStr 0)]))])

def ENVELOPE_SCHEMA : Schema :=
  .sObj ["meta", "task"] (propsOfList
    [("meta", .sObj ["version", "lang", "task"] (propsOfList
        [("version", .sString), ("lang", .sString),
         ("task", .sEnum ["image", "marketing", "agent"])])),
     ("task", .sOneOf3 IMAGE_SCHEMA MARKETING_SCHEMA AGENT_SCHEMA)])

/-- `validate_envelope`: the boolean verdict and the error list
(`[e.message]` of the first violation abstracted into one message). -/
def validate_envelope (j : Json) : Bool × List String :=
  if checkS ENVELOPE_SCHEMA j then (true, [])
  else (false, ["envelope does not conform to ENVELOPE_SCHEMA"])

mutual
/-- The instance carries, somewhere the validator inspects, an object key
that the schema does not declare at that position (for `oneOf`, a key
undeclared under every branch). -/
def undeclaredB : Schema → Json → Bool
  | .sObj _ props, j =>
    (match j with
     | .obj kvs =>
       kvs.any (fun kv => !keyDeclared props kv.1) || undeclaredProps props kvs
     | _ => false)
  | .sOneOf3 a b c, j => undeclaredB a j && undeclaredB b j && undeclaredB c j
  | _, _ => false

def undeclaredProps : Props → List (String × Json) → Bool
  | .nil, _ => false
  | .cons k s rest, kvs =>
    (match lookupJ kvs k with | some v => undeclaredB s v | none => false)
      || undeclaredProps rest kvs
end

/-- Replace `meta.lang` of an envelope, leaving everything else intact. -/
def setLangInMeta (l : String) : Json → Json
  | .obj kvs => .obj (kvs.map (fun kv => if kv.1 == "lang" then (kv.1, Json.str l) else kv))
  | j => j

def setMetaLang (l : String) : Json → Json
  | .obj kvs => .obj (kvs.map (fun kv => if kv.1 == "meta" then (kv.1, setLangInMeta l kv.2) else kv))
  | j => j

example : checkS ENVELOPE_SCHEMA (build_envelope "hello world" "vi" .image) = true := by decide
example : checkS ENVELOPE_SCHEMA (build_envelope "TikTok video" "en" .marketing) = true := by decide
example : checkS ENVELOPE_SCHEMA (build_envelope "x" "vi" .agent) = true := by decide
example : checkS ENVELOPE_SCHEMA (Json.obj []) = false := by decide

/-! ## Generic lemmas about the checker -/

@[simp] theorem all_isStr_map (l : List String) : (l.map Json.str).all isStrJ = true := by
  induction l with
  | nil => rfl
  | cons x xs ih => simp [isStrJ, ih]

mutual
/-- An undeclared key anywhere the validator inspects forces rejection. -/
theorem undecl_sound (s : Schema) (j : Json) (h : undeclaredB s j = true) :
    checkS s j = false := by
  cases s with
  | sString => simp [undeclaredB] at h
  | sEnum vs => simp [undeclaredB] at h
  | sInt lo hi => simp [undeclaredB] at h
  | sArrStr m => simp [undeclaredB] at h
  | sObj req props =>
    cases j with
    | str s2 => simp [undeclaredB] at h
    | int n => simp [undeclaredB] at h
    | arr xs => simp [undeclaredB] at h
    | obj kvs =>
      have h2 : (kvs.any (fun kv => !keyDeclared props kv.1)
          || undeclaredProps props kvs) = true := by
        simpa [undeclaredB] using h
      cases hA : kvs.any (fun kv => !keyDeclared props kv.1) with
      | true =>
        obtain ⟨kv, hmem, hkv⟩ := List.any_eq_true.mp hA
        have hall : kvs.all (fun kv => keyDeclared props kv.1) = false := by
          apply Bool.eq_false_iff.mpr
          intro hall
          have hd := List.all_eq_true.mp hall kv hmem
          rw [hd] at hkv
          simp at hkv
        simp [checkS, hall]
      | false =>
        have h3 : undeclaredProps props kvs = true := by simpa [hA] using h2
        have hp := undeclProps_sound props kvs h3
        simp [checkS, hp]
  | sOneOf3 a b c =>
    have h2 : (undeclaredB a j = true ∧ undeclaredB b j = true)
        ∧ undeclaredB c j = true := by
      simpa [undeclaredB, Bool.and_eq_true] using h
    have ha := undecl_sound a j h2.1.1
    have hb := undecl_sound b j h2.1.2
    have hc := undecl_sound c j h2.2
    simp [checkS, ha, hb, hc]

theorem undeclProps_sound (props : Props) (kvs : List (String × Json))
    (h : undeclaredProps props kvs = true) : checkProps props kvs = false := by
  cases props with
  | nil => simp [undeclaredProps] at h
  | cons k s rest =>
    have h2 : ((match lookupJ kvs k with
        | some v => undeclaredB s v | none => false)
        || undeclaredProps rest kvs) = true := by
      simpa [undeclaredProps] using h
    cases hA : (match lookupJ kvs k with
        | some v => undeclaredB s v | none => false) with
    | true =>
      cases hl : lookupJ kvs k with
      | none => rw [hl] at hA; simp at hA
      | some v =>
        rw [hl] at hA
        have hv := undecl_sound s v hA
        simp [checkProps, hl, hv]
    | false =>
      have h3 : undeclaredProps rest kvs = true := by simpa [hA] using h2
      have hr := undeclProps_sound rest kvs h3
      simp [checkProps, hr]
end

/-! ## Every built document validates against exactly its own task shape -/

theorem image_doc_valid (prim ar : String) (negative styles subject environment : List String)
    (shot lens ap : Option String) :
    checkS IMAGE_SCHEMA
      (imageAssemble prim negative ar styles subject environment shot lens ap) = true := by
  cases shot <;> cases lens <;> cases ap <;> cases styles <;> cases subject
    <;> cases environment <;>
    simp [imageAssemble, IMAGE_SCHEMA, propsOfList, checkS, checkProps, lookupJ,
      hasKeyJ, keyDeclared, isStrJ]

theorem image_doc_not_marketing (prim ar : String)
    (negative styles subject environment : List String) (shot lens ap : Option String) :
    checkS MARKETING_SCHEMA
      (imageAssemble prim negative ar styles subject environment shot lens ap) = false := by
  cases shot <;> cases lens <;> cases ap <;> cases styles <;> cases subject
    <;> cases environment <;>
    simp [imageAssemble, MARKETING_SCHEMA, propsOfList, checkS, checkProps, lookupJ,
      hasKeyJ, keyDeclared, isStrJ]

theorem image_doc_not_agent (prim ar : String)
    (negative styles subject environment : List String) (shot lens ap : Option String) :
    checkS AGENT_SCHEMA
      (imageAssemble prim negative ar styles subject environment shot lens ap) = false := by
  cases shot <;> cases lens <;> cases ap <;> cases styles <;> cases subject
    <;> cases environment <;>
    simp [imageAssemble, AGENT_SCHEMA, propsOfList, checkS, checkProps, lookupJ,
      hasKeyJ, keyDeclared, isStrJ]

theorem marketing_doc_valid (text : String) :
    checkS MARKETING_SCHEMA (parse_marketing text) = true := by
  simp [parse_marketing, MARKETING_SCHEMA, propsOfList, checkS, checkProps, lookupJ,
    hasKeyJ, keyDeclared, isStrJ]

theorem marketing_doc_not_image (text : String) :
    checkS IMAGE_SCHEMA (parse_marketing text) = false := by
  simp [parse_marketing, IMAGE_SCHEMA, propsOfList, checkS, checkProps, lookupJ,
    hasKeyJ, keyDeclared, isStrJ]

theorem marketing_doc_not_agent (text : String) :
    checkS AGENT_SCHEMA (parse_marketing text) = false := by
  simp [parse_marketing, AGENT_SCHEMA, propsOfList, checkS, checkProps, lookupJ,
    hasKeyJ, keyDeclared, isStrJ]

theorem agent_doc_valid (text : String) :
    checkS AGENT_SCHEMA (parse_agent text) = true := by
  simp only [parse_agent]
  decide

theorem agent_doc_not_image (text : String) :
    checkS IMAGE_SCHEMA (parse_agent text) = false := by
  simp only [parse_agent]
  decide

theorem agent_doc_not_marketing (text : String) :
    checkS MARKETING_SCHEMA (parse_agent text) = false := by
  simp only [parse_agent]
  decide

/-- Every envelope the three builders can produce passes validation. -/
theorem validate_build (text lang : String) (task : TaskType) :
    validate_envelope (build_envelope text lang task) = (true, []) := by
  cases task with
  | image =>
    have h1 : checkS IMAGE_SCHEMA (parse_image text) = true :=
      image_doc_valid _ _ _ _ _ _ _ _ _
    have h2 : checkS MARKETING_SCHEMA (parse_image text) = false :=
      image_doc_not_marketing _ _ _ _ _ _ _ _ _
    have h3 : checkS AGENT_SCHEMA (parse_image text) = false :=
      image_doc_not_agent _ _ _ _ _ _ _ _ _
    have hE : checkS ENVELOPE_SCHEMA (build_envelope text lang .image)
        = ((((checkS IMAGE_SCHEMA (parse_image text)).toNat
            + (checkS MARKETING_SCHEMA (parse_image text)).toNat
            + (checkS AGENT_SCHEMA (parse_image text)).toNat) == 1) && true) := rfl
    unfold validate_envelope
    rw [hE, h1, h2, h3]
    decide
  | marketing =>
    have h1 : checkS MARKETING_SCHEMA (parse_marketing text) = true :=
      marketing_doc_valid text
    have h2 : checkS IMAGE_SCHEMA (parse_marketing text) = false :=
      marketing_doc_not_image text
    have h3 : checkS AGENT_SCHEMA (parse_marketing text) = false :=
      marketing_doc_not_agent text
    have hE : checkS ENVELOPE_SCHEMA (build_envelope text lang .marketing)
        = ((((checkS IMAGE_SCHEMA (parse_marketing text)).toNat
            + (checkS MARKETING_SCHEMA (parse_marketing text)).toNat
            + (checkS AGENT_SCHEMA (parse_marketing text)).toNat) == 1) && true) := rfl
    unfold validate_envelope
    rw [hE, h1, h2, h3]
    decide
  | agent =>
    have h1 : checkS AGENT_SCHEMA (parse_agent text) = true := agent_doc_valid text
    have h2 : checkS IMAGE_SCHEMA (parse_agent text) = false := agent_doc_not_image text
    have h3 : checkS MARKETING_SCHEMA (parse_agent text) = false :=
      agent_doc_not_marketing text
    have hE : checkS ENVELOPE_SCHEMA (build_envelope text lang .agent)
        = ((((checkS IMAGE_SCHEMA (parse_agent text)).toNat
            + (checkS MARKETING_SCHEMA (parse_agent text)).toNat
            + (checkS AGENT_SCHEMA (parse_agent text)).toNat) == 1) && true) := rfl
    unfold validate_envelope
    rw [hE, h1, h2, h3]
    decide

/-! ## Lemmas about the list helpers -/

theorem splitSE_eq_filter (l : List String) :
    splitSE l = (l.filter (fun p => !isEnvFrag p), l.filter (fun p => isEnvFrag p)) := by
  induction l with
  | nil => rfl
  | cons p rest ih =>
    simp only [splitSE, ih, List.filter_cons]
    cases h : isEnvFrag p <;> simp [h]

theorem splitOnPred_ne_nil (p : Char → Bool) (l : List Char) : splitOnPred p l ≠ [] := by
  cases l with
  | nil => simp [splitOnPred]
  | cons c rest =>
    simp only [splitOnPred]
    cases splitOnPred p rest with
    | nil => simp
    | cons h t => cases hc : p c <;> simp

theorem splitOnPred_headD (p : Char → Bool) (l : List Char) :
    (splitOnPred p l).headD [] = l.takeWhile (fun c => !p c) := by
  induction l with
  | nil => rfl
  | cons c rest ih =>
    simp only [splitOnPred]
    cases hsp : splitOnPred p rest with
    | nil => exact absurd hsp (splitOnPred_ne_nil p rest)
    | cons h t =>
      rw [hsp] at ih
      cases hc : p c
      · simp only [hc, List.takeWhile_cons, Bool.not_false, if_true]
        simp [List.headD] at ih ⊢
        exact ih
      · simp [hc, List.takeWhile_cons]

theorem dedupeGo_nodup (l : List String) :
    ∀ out : List String, out.Nodup → (dedupeGo out l).Nodup := by
  induction l with
  | nil => intro out h; simpa [dedupeGo] using h
  | cons x rest ih =>
    intro out h
    simp only [dedupeGo]
    split
    next hcond =>
      apply ih
      have hx : x ∉ out := by
        have h2 := (Bool.and_eq_true _ _).mp hcond
        intro hmem
        have : out.contains x = true := List.elem_eq_true_of_mem hmem
        rw [this] at h2
        simp at h2
      simp [List.nodup_append, h, hx]
    next => exact ih out h

/-! ## Claim theorems -/

/-- C1: for every non-empty input text in which no aspect-ratio pattern, lens,
aperture, shot synonym or style keyword is detected and negative extraction is
empty (in particular, for keyword-free text), the image document carries the
fixed default negative list, aspect ratio "1:1" and num_images 1, and the
assembled envelope passes schema validation. -/
theorem c1_fallback_defaults (text lang : String) (h0 : text ≠ "")
    (har : extract_aspect_ratio text = none)
    (hlens : extract_lens text = none)
    (hap : extract_aperture text = none)
    (hshot : extract_shot text = none)
    (hstyles : extract_styles text = [])
    (hneg : extract_negative text = []) :
    getPath (parse_image text) ["constraints", "negative"]
      = some (Json.arr [Json.str "text", Json.str "watermark", Json.str "blurry",
          Json.str "low quality"])
    ∧ getPath (parse_image text) ["output", "aspect_ratio"] = some (Json.str "1:1")
    ∧ getPath (parse_image text) ["output", "num_images"] = some (Json.int 1)
    ∧ validate_envelope (build_envelope text lang .image) = (true, []) := by
  refine ⟨?_, ?_, ?_, validate_build text lang .image⟩ <;>
    simp [parse_image, imageAssemble, har, hneg, getPath, lookupJ]

theorem c1_witness :
    getPath (parse_image "hello world") ["constraints", "negative"]
      = some (Json.arr [Json.str "text", Json.str "watermark", Json.str "blurry",
          Json.str "low quality"])
    ∧ getPath (parse_image "hello world") ["output", "aspect_ratio"] = some (Json.str "1:1")
    ∧ getPath (parse_image "hello world") ["output", "num_images"] = some (Json.int 1)
    ∧ validate_envelope (build_envelope "hello world" "vi" .image) = (true, []) :=
  c1_fallback_defaults "hello world" "vi" (by decide) (by decide) (by decide)
    (by decide) (by decide) (by decide) (by decide)

/-- C2: the literal input "macro shot, f/2.8, 85mm, negative: blurry, low quality"
yields composition shot "close-up", lens "85mm", aperture "f/2.8" and negative
list ["blurry", "low quality"]. -/
theorem c2_literal_extraction :
    getPath (parse_image "macro shot, f/2.8, 85mm, negative: blurry, low quality")
        ["composition"]
      = some (Json.obj [("shot", Json.str "close-up"), ("lens", Json.str "85mm"),
          ("aperture", Json.str "f/2.8")])
    ∧ getPath (parse_image "macro shot, f/2.8, 85mm, negative: blurry, low quality")
        ["constraints", "negative"]
      = some (Json.arr [Json.str "blurry", Json.str "low quality"]) :=
  ⟨rfl, rfl⟩

/-- C3 counterexample: "negative: a, b, --no a, c" contains both fragments
"negative: a, b" and "--no a, c", yet extract_negative does not return
["a", "b", "c"]: strategy 1 keeps everything after "negative:" and only splits
on commas, so the piece "--no a" survives as a list element. -/
theorem c3_counterexample :
    pyContains "negative: a, b" "negative: a, b, --no a, c" = true
    ∧ pyContains "--no a, c" "negative: a, b, --no a, c" = true
    ∧ extract_negative "negative: a, b, --no a, c" ≠ ["a", "b", "c"] := by
  refine ⟨by decide, by decide, by decide⟩

/-- C3 amended: on that input the strategies' pieces are concatenated in order
1→2→3 and de-duplicated by exact string equality preserving first appearance,
giving ["a", "b", "--no a", "c"]; in general the extracted negative list is
duplicate-free. -/
theorem c3_amended_dedup :
    extract_negative "negative: a, b, --no a, c" = ["a", "b", "--no a", "c"]
    ∧ ∀ text : String, (extract_negative text).Nodup := by
  refine ⟨by decide, ?_⟩
  intro text
  unfold extract_negative
  exact dedupeGo_nodup _ [] List.nodup_nil

/-- C4 counterexample: "4:5 16:9" contains the substring "16:9", but the
aspect patterns are tried in the order 1:1, 4:5, 16:9, 9:16 with first match
winning, so extraction returns "4:5" and output.aspect_ratio is "4:5". -/
theorem c4_counterexample :
    pyContains "16:9" "4:5 16:9" = true
    ∧ extract_aspect_ratio "4:5 16:9" = some "4:5"
    ∧ getPath (parse_image "4:5 16:9") ["output", "aspect_ratio"] = some (Json.str "4:5")
    ∧ ("4:5" : String) ≠ "16:9" :=
  ⟨by decide, by decide, rfl, by decide⟩

/-- C4 amended: when "16:9" occurs at word boundaries and neither the "1:1"
nor the "4:5" pattern matches, extraction returns "16:9" and the image task's
output.aspect_ratio is "16:9" (patterns are tried in the fixed order with
first match winning, defaulting to "1:1" when none matches). -/
theorem c4_amended_first_match (text : String)
    (h16 : searchBounded "16:9" text = true)
    (h11 : searchBounded "1:1" text = false)
    (h45 : searchBounded "4:5" text = false) :
    extract_aspect_ratio text = some "16:9"
    ∧ getPath (parse_image text) ["output", "aspect_ratio"] = some (Json.str "16:9") := by
  have har : extract_aspect_ratio text = some "16:9" := by
    simp [extract_aspect_ratio, ASPECT_PATTERNS, firstAspect, h16, h11, h45]
  exact ⟨har, by simp [parse_image, imageAssemble, har, getPath, lookupJ]⟩

theorem c4_amended_witness :
    extract_aspect_ratio "16:9" = some "16:9"
    ∧ getPath (parse_image "16:9") ["output", "aspect_ratio"] = some (Json.str "16:9") :=
  c4_amended_first_match "16:9" (by decide) (by decide) (by decide)

/-- C5: any document carrying an object key the schema does not declare at
that nesting level (for the task oneOf: under every branch) fails validation
with a non-empty error list, and validation succeeds exactly when the error
list is empty. -/
theorem c5_closed_validation (j : Json) :
    (undeclaredB ENVELOPE_SCHEMA j = true →
      (validate_envelope j).1 = false ∧ (validate_envelope j).2 ≠ [])
    ∧ ((validate_envelope j).1 = true ↔ (validate_envelope j).2 = []) := by
  constructor
  · intro h
    have hc := undecl_sound ENVELOPE_SCHEMA j h
    simp [validate_envelope, hc]
  · unfold validate_envelope
    split <;> simp

/-- A well-formed envelope with one extra undeclared top-level property. -/
def c5ExtraDoc : Json :=
  Json.obj [("meta", Json.obj [("version", Json.str "1.0"), ("lang", Json.str "vi"),
    ("task", Json.str "image")]),
    ("task", Json.obj [("primary", Json.str "x"),
      ("constraints", Json.obj [("negative", Json.arr [])]),
      ("output", Json.obj [("aspect_ratio", Json.str "1:1"), ("num_images", Json.int 1)])]),
    ("extra", Json.str "boom")]

theorem c5_witness :
    ((validate_envelope c5ExtraDoc).1 = false ∧ (validate_envelope c5ExtraDoc).2 ≠ [])
    ∧ ((validate_envelope c5ExtraDoc).1 = true ↔ (validate_envelope c5ExtraDoc).2 = []) :=
  ⟨(c5_closed_validation c5ExtraDoc).1 (by decide), (c5_closed_validation c5ExtraDoc).2⟩

/-- C6: the agent task document is a fixed constant: any two input texts (with
the same lang) produce identical envelopes, and for different langs the
envelopes agree after replacing meta.lang. -/
theorem c6_agent_invariance :
    (∀ t1 t2 lang : String,
      build_envelope t1 lang .agent = build_envelope t2 lang .agent)
    ∧ (∀ t1 t2 l1 l2 : String,
      setMetaLang l2 (build_envelope t1 l1 .agent) = build_envelope t2 l2 .agent) := by
  constructor
  · intro t1 t2 lang
    rfl
  · intro t1 t2 l1 l2
    rfl

/-- C7: the marketing platform is "tiktok" when the lower-cased text contains
"tiktok", else "facebook" when it contains "facebook" or "fb", else "social",
first match winning; in particular "TikTok video for our new latte" gives
platform "tiktok". -/
theorem c7_platform_priority :
    (∀ text : String, getPath (parse_marketing text) ["platform"]
      = some (Json.str (if pyContains "tiktok" (pyLower text) then "tiktok"
          else if pyContains "facebook" (pyLower text) || pyContains "fb" (pyLower text)
            then "facebook" else "social")))
    ∧ getPath (parse_marketing "TikTok video for our new latte") ["platform"]
      = some (Json.str "tiktok") := by
  constructor
  · intro text
    simp [parse_marketing, getPath, lookupJ]
  · rfl

/-- C8: the marketing product name is the trimmed text before the first comma
when that trimmed fragment has length at least 3, and the literal "Sản phẩm"
otherwise. -/
theorem c8_product_name (text : String) :
    getPath (parse_marketing text) ["product", "name"]
      = some (Json.str (if 3 ≤ (pyStrip (beforeFirstComma text)).length
          then pyStrip (beforeFirstComma text) else "Sản phẩm")) := by
  have hfirst : String.mk ((splitOnPred (fun c => c == ',') text.data).head?.getD [])
      = beforeFirstComma text := by
    rw [← List.headD_eq_head?, splitOnPred_headD]
    rfl
  simp [parse_marketing, getPath, lookupJ, hfirst, ge_iff_le]

/-- C9: when the comma-split yields more than 6 trimmed non-empty fragments
classified as non-environment, the subject list is exactly the first 6 such
fragments in order, and the environment list is likewise truncated to at
most 6. -/
theorem c9_subject_cap (text : String)
    (h : 6 < ((imageParts text).filter (fun p => !isEnvFrag p)).length) :
    (naive_subject_environment text).1
        = ((imageParts text).filter (fun p => !isEnvFrag p)).take 6
    ∧ (naive_subject_environment text).1.length = 6
    ∧ (naive_subject_environment text).2
        = ((imageParts text).filter (fun p => isEnvFrag p)).take 6
    ∧ (naive_subject_environment text).2.length ≤ 6 := by
  have hs := splitSE_eq_filter (imageParts text)
  refine ⟨by simp [naive_subject_environment, hs], ?_,
    by simp [naive_subject_environment, hs], ?_⟩
  · simp [naive_subject_environment, hs, List.length_take]
    omega
  · simp [naive_subject_environment, hs, List.length_take]

theorem c9_witness :
    (naive_subject_environment "a1, b2, c3, d4, e5, f6, g7").1
        = ((imageParts "a1, b2, c3, d4, e5, f6, g7").filter (fun p => !isEnvFrag p)).take 6
    ∧ (naive_subject_environment "a1, b2, c3, d4, e5, f6, g7").1.length = 6
    ∧ (naive_subject_environment "a1, b2, c3, d4, e5, f6, g7").2
        = ((imageParts "a1, b2, c3, d4, e5, f6, g7").filter (fun p => isEnvFrag p)).take 6
    ∧ (naive_subject_environment "a1, b2, c3, d4, e5, f6, g7").2.length ≤ 6 :=
  c9_subject_cap "a1, b2, c3, d4, e5, f6, g7" (by decide)

/-- C10: for every input triple the assembled envelope passes the validator:
the failure branch is unreachable for documents the three builders produce. -/
theorem c10_builders_always_validate (text lang : String) (task : TaskType)
    (h : text ≠ "") :
    validate_envelope (build_envelope text lang task) = (true, []) :=
  validate_build text lang task

theorem c10_witness :
    validate_envelope (build_envelope "hello" "vi" TaskType.image) = (true, []) :=
  c10_builders_always_validate "hello" "vi" TaskType.image (by decide)
